import Mathlib

/- Verification development for the gitdir downloader (src/gitdir.js).

   The script downloads every blob of a GitHub repository subdirectory.
   We shallowly embed the downloader pipeline as pure Lean functions:

   * network and disk behaviour is an oracle (`Env`): for each url and
     attempt number the fetch either yields the decoded blob content
     (HTTP 200) or fails; for each destination path the write either
     succeeds or fails;
   * `pRetryFetch` embeds the p-retry call with option `retries = 5`,
     whose documented semantics is "5 retries after the initial attempt",
     i.e. up to 6 invocations of the wrapped function;
   * `downloadFile` embeds the per-file job: join the output path, fetch
     with retry (a rejection propagates), then a fire-and-forget
     fs.writeFile whose error callback pushes the file onto
     failedDownloads and whose thrown error never reaches the job, and
     finally the progress-bar increment;
   * `runDownloads` embeds the p-map call (stopOnError defaults to true:
     the first rejected job rejects the batch, the catch handler warns
     and aborts the shared AbortController), with jobs scheduled
     sequentially in input order;
   * `downloadDirectory` embeds the tree filtering and the run, taking
     the already-fetched git tree as input (the GitHub API call is an
     external collaborator);
   * `download` embeds the entry point: URL parsing (modelled as an
     Option, since the WHATWG URL constructor is external), the
     URL_REGEX destructuring which throws a TypeError when the pathname
     does not match, and the existsSync guard that exits when the target
     folder already exists;
   * `getContentFromUrl` / `pRetryTrace` embed the cancellation-visible
     view of a single retried fetch: node-fetch rejects immediately,
     before any network request, when the abort signal is already set,
     and p-retry (which never sees the signal) treats such a rejection
     as an ordinary failed attempt. -/

namespace GitDir

/-- A git tree entry as returned by the GitHub trees API: its type
    ("blob" or "tree"), repository-relative path, and content url. -/
structure TreeFile where
  type : String
  path : String
  url : String
deriving DecidableEq

abbrev Content := String

/-- The p-retry option used at src/gitdir.js:107: retries = 5, meaning
    five retries after the initial attempt. -/
def RETRIES : Nat := 5

/-- The p-retry loop: attempts are numbered from 1; a failed attempt is
    retried while fuel remains, and the final failure is rethrown. -/
def pRetryGo (f : Nat → Option Content) (attempt : Nat) : Nat → Option Content
  | 0 => f attempt
  | fuel + 1 =>
    match f attempt with
    | some c => some c
    | none => pRetryGo f (attempt + 1) fuel

/-- pRetry(run, retries = 5) as used in downloadFile: the result of up
    to RETRIES + 1 invocations of the fetch. -/
def pRetryFetch (f : Nat → Option Content) : Option Content :=
  pRetryGo f 1 RETRIES

/-- Number of invocations of the wrapped fetch that the p-retry loop
    performs. -/
def pRetryAttemptsGo (f : Nat → Option Content) (attempt : Nat) : Nat → Nat
  | 0 => 1
  | fuel + 1 =>
    match f attempt with
    | some _ => 1
    | none => 1 + pRetryAttemptsGo f (attempt + 1) fuel

/-- Number of attempts made by pRetryFetch. -/
def pRetryAttempts (f : Nat → Option Content) : Nat :=
  pRetryAttemptsGo f 1 RETRIES

/-- Split a character list at every occurrence of a separator
    character. Character-level embedding of splitting a path string on
    slashes; agrees with String.splitOn for a one-character separator. -/
def splitOnChar (c : Char) : List Char → List (List Char)
  | [] => [[]]
  | x :: xs =>
    if x = c then [] :: splitOnChar c xs
    else
      match splitOnChar c xs with
      | [] => [[x]]
      | y :: ys => (x :: y) :: ys

/-- Split a string on slashes. -/
def splitSlash (s : String) : List String :=
  (splitOnChar ('/') s.data).map (fun l => ⟨l⟩)

/-- Character-level embedding of the JavaScript startsWith test. -/
def strStartsWith (s pre : String) : Bool :=
  pre.data.isPrefixOf s.data

/-- Character-level embedding of the JavaScript endsWith test. -/
def strEndsWith (s t : String) : Bool :=
  t.data.isSuffixOf s.data

/-- Node path normalization of an absolute path, as segment list: empty
    and dot segments vanish, a dot-dot segment removes the previous
    segment (and is dropped at the root). -/
def normalizeAbs (segs : List String) : List String :=
  segs.foldl
    (fun acc s =>
      if s = "" || s = "." then acc
      else if s = ".." then acc.dropLast
      else acc ++ [s])
    []

/-- path.join(root, rel) for an absolute root, as used at
    src/gitdir.js:102. -/
def joinPath (root rel : String) : String :=
  "/" ++ String.intercalate ("/") (normalizeAbs (splitSlash root ++ splitSlash rel))

/-- External-world oracle for one run: for each content url and attempt
    number, the fetch result (some decoded content on HTTP 200, none on
    a failure), and for each destination path whether the disk write
    succeeds. -/
structure Env where
  net : String → Nat → Option Content
  writeOk : String → Bool

/-- The mutable run-scoped state of downloadDirectory: the progress-bar
    counter, the failedDownloads array, and the destination filesystem
    (an association list from absolute path to content). -/
structure RunState where
  completed : Nat
  failedDownloads : List TreeFile
  files : List (String × Content)
deriving DecidableEq

/-- fs.writeFile: create or overwrite the file at path p. -/
def writeEntry (files : List (String × Content)) (p : String) (c : Content) :
    List (String × Content) :=
  if files.any (fun e => e.1 == p) then
    files.map (fun e => if e.1 == p then (p, c) else e)
  else files ++ [(p, c)]

/-- The per-file job (src/gitdir.js:101-131). Returns whether the
    returned promise resolved, and the updated state. A fetch whose
    retries are exhausted rejects the job: nothing is recorded and the
    counter is not incremented. After a successful fetch the write is
    fire-and-forget: a write error pushes the file onto failedDownloads
    (the error thrown inside the callback never reaches the job), and
    the progress bar is incremented regardless. -/
def downloadFile (env : Env) (outputDir : String) (file : TreeFile) (st : RunState) :
    Bool × RunState :=
  let fullPath := joinPath outputDir file.path
  match pRetryFetch (env.net file.url) with
  | none => (false, st)
  | some blob =>
    let st1 :=
      if env.writeOk fullPath then
        { st with files := writeEntry st.files fullPath blob }
      else
        { st with failedDownloads := st.failedDownloads ++ [file] }
    (true, { st1 with completed := st1.completed + 1 })

/-- The pMap call (src/gitdir.js:133-138) with its default
    stopOnError: jobs run in input order; the first rejected job rejects
    the batch, whose catch handler warns and aborts the shared
    controller. Returns the final state and whether the batch aborted. -/
def runDownloads (env : Env) (outputDir : String) :
    List TreeFile → RunState → RunState × Bool
  | [], st => (st, false)
  | f :: rest, st =>
    if (downloadFile env outputDir f st).1 then
      runDownloads env outputDir rest (downloadFile env outputDir f st).2
    else ((downloadFile env outputDir f st).2, true)

/-- The sequence of states observed during a run: the state before each
    job and the final state. -/
def runStates (env : Env) (outputDir : String) :
    List TreeFile → RunState → List RunState
  | [], st => [st]
  | f :: rest, st =>
    if (downloadFile env outputDir f st).1 then
      st :: runStates env outputDir rest (downloadFile env outputDir f st).2
    else [st, (downloadFile env outputDir f st).2]

/-- The directory argument is forced to end with a slash
    (src/gitdir.js:67). -/
def normalizeDir (dir : String) : String :=
  if strEndsWith dir ("/") then dir else dir ++ "/"

/-- The selection loop at src/gitdir.js:91-95: push every tree entry
    whose type is blob and whose path starts with the directory. -/
def selectDownloads (tree : List TreeFile) (dir : String) : List TreeFile :=
  tree.foldl
    (fun acc f =>
      if f.type == "blob" && strStartsWith f.path (normalizeDir dir) then acc ++ [f]
      else acc)
    []

/-- The observable outcome of one downloadDirectory run. -/
structure DirResult where
  total : Nat
  completed : Nat
  failedDownloads : List TreeFile
  files : List (String × Content)
  aborted : Bool
deriving DecidableEq

/-- downloadDirectory (src/gitdir.js:58-144) from the point where the
    git tree has been fetched: filter the tree, start the progress bar
    with the number of downloads as total, run the jobs, report. The
    destination may already hold files (initFiles). -/
def downloadDirectory (env : Env) (tree : List TreeFile) (dir outputDir : String)
    (initFiles : List (String × Content)) : DirResult :=
  let downloads := selectDownloads tree dir
  let r := runDownloads env outputDir downloads
    { completed := 0, failedDownloads := [], files := initFiles }
  { total := downloads.length
    completed := r.1.completed
    failedDownloads := r.1.failedDownloads
    files := r.1.files
    aborted := r.2 }

/-- URL_REGEX (src/gitdir.js:10) applied to a pathname. The pattern
    caret slash ([^/]+) slash ([^/]+) slash tree slash ([^/]+) slash (.*)
    matches deterministically because [^/]+ cannot cross a slash: the
    pathname must start with a slash, its first two segments are user
    and repository, the third is literally tree, the fourth (ref) must
    be nonempty and followed by a slash, and everything after that slash
    is the directory. -/
def URL_REGEX_exec (pathname : String) :
    Option (String × String × String × String) :=
  match splitSlash pathname with
  | "" :: user :: repo :: "tree" :: ref :: rest =>
    if user == "" || repo == "" || ref == "" || rest.isEmpty then none
    else some (user, repo, ref, String.intercalate ("/") rest)
  | _ => none

/-- The observable outcome of the download entry point. -/
inductive EntryResult where
  | invalidUrlWarning
  | throwsTypeError
  | exitFolderExists
  | ran (r : DirResult)
deriving DecidableEq

/-- download (src/gitdir.js:150-200). The WHATWG URL constructor is
    external, so the entry takes the parse result: none when the
    constructor threw (warn and return), some pathname otherwise.
    Destructuring the null result of URL_REGEX.exec throws a TypeError.
    The repository-info call is an external collaborator assumed
    successful. If the target folder already exists the process exits
    with code 1; otherwise downloadDirectory runs. -/
def download (env : Env) (existsSync : String → Bool) (parsedUrl : Option String)
    (tree : List TreeFile) (outputDir : String)
    (initFiles : List (String × Content)) : EntryResult :=
  match parsedUrl with
  | none => .invalidUrlWarning
  | some pathname =>
    match URL_REGEX_exec pathname with
    | none => .throwsTypeError
    | some (_, _, _, dir) =>
      if existsSync (joinPath outputDir dir) then .exitFolderExists
      else .ran (downloadDirectory env tree dir outputDir initFiles)

/-- Rejection reasons of one fetch, for the cancellation-visible view:
    node-fetch rejects with an abort error when the signal is already
    set, and getContentFromUrl throws on a non-200 status. -/
inductive FetchErr where
  | aborted
  | httpErr
deriving DecidableEq

/-- getContentFromUrl (src/gitdir.js:42-56) with the shared abort
    signal: if the signal is set at the start of attempt i, node-fetch
    rejects immediately and no network request is transmitted; otherwise
    the network oracle decides the outcome. -/
def getContentFromUrl (net : Nat → Option Content) (cancelledAt : Nat → Bool)
    (i : Nat) : Except FetchErr Content :=
  if cancelledAt i then .error .aborted
  else
    match net i with
    | some c => .ok c
    | none => .error .httpErr

/-- The p-retry loop over the cancellation-visible fetch, recording the
    list of attempt numbers at which the wrapped fetch was invoked.
    p-retry never sees the abort signal: an abort rejection is an
    ordinary failed attempt. -/
def pRetryTraceGo (f : Nat → Except FetchErr Content) (attempt : Nat) :
    Nat → Except FetchErr Content × List Nat
  | 0 => (f attempt, [attempt])
  | fuel + 1 =>
    match f attempt with
    | .ok c => (.ok c, [attempt])
    | .error _ =>
      let r := pRetryTraceGo f (attempt + 1) fuel
      (r.1, attempt :: r.2)

/-- pRetry with retries = 5 over the cancellation-visible fetch. -/
def pRetryTrace (f : Nat → Except FetchErr Content) :
    Except FetchErr Content × List Nat :=
  pRetryTraceGo f 1 RETRIES

/-- Attempts of a trace at which a network request was actually
    transmitted: those where the signal was not yet set. -/
def networkCalls (cancelledAt : Nat → Bool) (attempts : List Nat) : List Nat :=
  attempts.filter (fun i => !cancelledAt i)

/- ------------------------------------------------------------------ -/
/- Concrete runs used by the theorems below                            -/
/- ------------------------------------------------------------------ -/

/-- A fetch that fails on every attempt up to the fifth and succeeds on
    the sixth, used to exercise the retry loop. -/
def C2net : Nat → Option Content := fun i => if i ≤ 5 then none else some ("c")

/-- A network oracle that always fails with a non-200 status. -/
def C6net : Nat → Option Content := fun _ => none

/-- An abort signal that is set between the first and second attempt. -/
def C6cancelFromSecond : Nat → Bool := fun i => decide (2 ≤ i)

/-- An abort signal that is already set before the first attempt. -/
def C6cancelAll : Nat → Bool := fun _ => true

/-- A one-file healthy run used as a concrete witness. -/
def C7tree : List TreeFile := [⟨"blob", "d/x", "u7"⟩]

/-- An environment in which every fetch succeeds on the first attempt
    and every write succeeds. -/
def C7env : Env := { net := fun _ _ => some ("c"), writeOk := fun _ => true }

/-- One hundred blobs under directory d/, with urls 0 through 99. -/
def C1tree : List TreeFile :=
  (List.range 100).map (fun i => ⟨"blob", "d/" ++ Nat.repr i, Nat.repr i⟩)

/-- An environment in which the fetch of url 50 fails on every attempt
    (retries permanently exhausted) while every other fetch succeeds
    immediately, and every write succeeds. -/
def C1env : Env :=
  { net := fun u _ => if u == "50" then none else some ("c" ++ u)
    writeOk := fun _ => true }

/-- A blob whose repository-relative path escapes the output root via
    dot-dot segments; it still passes the directory filter for a/. -/
def C3file : TreeFile := ⟨"blob", "a/../../evil", "u3"⟩

/-- An environment in which every fetch succeeds immediately and every
    write succeeds. -/
def C3env : Env := { net := fun _ _ => some ("payload"), writeOk := fun _ => true }

/-- A descriptor whose fetch succeeds but whose disk write fails. -/
def C5file : TreeFile := ⟨"blob", "d/a", "u5"⟩

/-- An environment in which every fetch succeeds immediately and every
    write fails. -/
def C5env : Env := { net := fun _ _ => some ("b64"), writeOk := fun _ => false }

/-- A single blob that lies outside the requested directory sub/. -/
def C8tree : List TreeFile := [⟨"blob", "other/f", "u8"⟩]

/-- An environment in which every fetch succeeds immediately and every
    write succeeds. -/
def C8env : Env := { net := fun _ _ => some ("c"), writeOk := fun _ => true }

/-- A one-blob tree under directory d/. -/
def C9tree : List TreeFile := [⟨"blob", "d/f", "u9"⟩]

/-- A deterministic environment: every fetch succeeds immediately and
    every write succeeds. -/
def C9env : Env := { net := fun _ _ => some ("c"), writeOk := fun _ => true }

/-- An environment whose fetches all fail; the entry point never reaches
    it in the C10 scenarios. -/
def C10env : Env := { net := fun _ _ => none, writeOk := fun _ => true }

/- ------------------------------------------------------------------ -/
/- Helper lemmas                                                       -/
/- ------------------------------------------------------------------ -/

/-- A retry loop with a given fuel performs at most fuel + 1 attempts. -/
lemma pRetryAttemptsGo_le (f : Nat → Option Content) :
    ∀ (fuel attempt : Nat), pRetryAttemptsGo f attempt fuel ≤ fuel + 1 := by
  intro fuel
  induction fuel with
  | zero => intro attempt; simp [pRetryAttemptsGo]
  | succ n ih =>
    intro attempt
    rw [pRetryAttemptsGo]
    cases f attempt with
    | some c => simp
    | none =>
      simp only []
      have := ih (attempt + 1)
      omega

/-- Stepping the retry loop past a failed attempt. -/
lemma pRetryGo_none (f : Nat → Option Content) (attempt fuel : Nat)
    (h : f attempt = none) :
    pRetryGo f attempt (fuel + 1) = pRetryGo f (attempt + 1) fuel := by
  rw [pRetryGo, h]

/-- The retry loop stops at a successful attempt. -/
lemma pRetryGo_some (f : Nat → Option Content) (attempt fuel : Nat) (c : Content)
    (h : f attempt = some c) :
    pRetryGo f attempt (fuel + 1) = some c := by
  rw [pRetryGo, h]

/-- Stepping the attempt counter past a failed attempt. -/
lemma pRetryAttemptsGo_none (f : Nat → Option Content) (attempt fuel : Nat)
    (h : f attempt = none) :
    pRetryAttemptsGo f attempt (fuel + 1) = 1 + pRetryAttemptsGo f (attempt + 1) fuel := by
  rw [pRetryAttemptsGo, h]

/-- The attempt counter stops at a successful attempt. -/
lemma pRetryAttemptsGo_some (f : Nat → Option Content) (attempt fuel : Nat) (c : Content)
    (h : f attempt = some c) :
    pRetryAttemptsGo f attempt (fuel + 1) = 1 := by
  rw [pRetryAttemptsGo, h]

/- ------------------------------------------------------------------ -/
/- Claim C2: retry budget                                              -/
/- ------------------------------------------------------------------ -/

/-- Claim C2 counterexample: the claim says the retrying fetch makes at
    most 5 total attempts and that a fetch failing on all 5 attempts
    yields an exhausted-retries failure with no 6th attempt. On the
    code, pRetry with retries = 5 makes up to 6 total attempts: C2net
    fails on attempts 1 through 5, yet the result is a success obtained
    on a 6th attempt. -/
theorem C2_counterexample_sixth_attempt_made :
    C2net 1 = none ∧ C2net 2 = none ∧ C2net 3 = none ∧ C2net 4 = none ∧
    C2net 5 = none ∧ pRetryFetch C2net = some ("c") ∧ pRetryAttempts C2net = 6 := by
  decide

/-- Claim C2 (amended): the p-retry option retries = 5 allows five
    retries after the initial attempt, so the retrying fetch makes at
    most 6 total attempts; a fetch that fails on the first 5 attempts
    and succeeds on the 6th yields that success in exactly 6 attempts;
    a fetch that fails on all 6 attempts is rethrown as an
    exhausted-retries failure after exactly 6 attempts and no 7th
    attempt is made. -/
theorem C2_retry_makes_up_to_six_attempts (f : Nat → Option Content) :
    pRetryAttempts f ≤ 6 ∧
    (∀ c : Content, (∀ i, 1 ≤ i → i ≤ 5 → f i = none) → f 6 = some c →
      pRetryFetch f = some c ∧ pRetryAttempts f = 6) ∧
    ((∀ i, 1 ≤ i → i ≤ 6 → f i = none) →
      pRetryFetch f = none ∧ pRetryAttempts f = 6) := by
  refine ⟨?_, ?_, ?_⟩
  · have h := pRetryAttemptsGo_le f RETRIES 1
    simpa [pRetryAttempts, RETRIES] using h
  · intro c h h6
    have h1 : f 1 = none := h 1 (by omega) (by omega)
    have h2 : f 2 = none := h 2 (by omega) (by omega)
    have h3 : f 3 = none := h 3 (by omega) (by omega)
    have h4 : f 4 = none := h 4 (by omega) (by omega)
    have h5 : f 5 = none := h 5 (by omega) (by omega)
    constructor
    · show pRetryGo f 1 5 = some c
      calc pRetryGo f 1 5 = pRetryGo f 2 4 := pRetryGo_none f 1 4 h1
        _ = pRetryGo f 3 3 := pRetryGo_none f 2 3 h2
        _ = pRetryGo f 4 2 := pRetryGo_none f 3 2 h3
        _ = pRetryGo f 5 1 := pRetryGo_none f 4 1 h4
        _ = pRetryGo f 6 0 := pRetryGo_none f 5 0 h5
        _ = some c := h6
    · show pRetryAttemptsGo f 1 5 = 6
      calc pRetryAttemptsGo f 1 5
          = 1 + pRetryAttemptsGo f 2 4 := pRetryAttemptsGo_none f 1 4 h1
        _ = 1 + (1 + pRetryAttemptsGo f 3 3) := by rw [pRetryAttemptsGo_none f 2 3 h2]
        _ = 1 + (1 + (1 + pRetryAttemptsGo f 4 2)) := by rw [pRetryAttemptsGo_none f 3 2 h3]
        _ = 1 + (1 + (1 + (1 + pRetryAttemptsGo f 5 1))) := by
            rw [pRetryAttemptsGo_none f 4 1 h4]
        _ = 1 + (1 + (1 + (1 + (1 + pRetryAttemptsGo f 6 0)))) := by
            rw [pRetryAttemptsGo_none f 5 0 h5]
        _ = 6 := by norm_num [pRetryAttemptsGo]
  · intro h
    have h1 : f 1 = none := h 1 (by omega) (by omega)
    have h2 : f 2 = none := h 2 (by omega) (by omega)
    have h3 : f 3 = none := h 3 (by omega) (by omega)
    have h4 : f 4 = none := h 4 (by omega) (by omega)
    have h5 : f 5 = none := h 5 (by omega) (by omega)
    have h6 : f 6 = none := h 6 (by omega) (by omega)
    constructor
    · show pRetryGo f 1 5 = none
      calc pRetryGo f 1 5 = pRetryGo f 2 4 := pRetryGo_none f 1 4 h1
        _ = pRetryGo f 3 3 := pRetryGo_none f 2 3 h2
        _ = pRetryGo f 4 2 := pRetryGo_none f 3 2 h3
        _ = pRetryGo f 5 1 := pRetryGo_none f 4 1 h4
        _ = pRetryGo f 6 0 := pRetryGo_none f 5 0 h5
        _ = none := h6
    · show pRetryAttemptsGo f 1 5 = 6
      calc pRetryAttemptsGo f 1 5
          = 1 + pRetryAttemptsGo f 2 4 := pRetryAttemptsGo_none f 1 4 h1
        _ = 1 + (1 + pRetryAttemptsGo f 3 3) := by rw [pRetryAttemptsGo_none f 2 3 h2]
        _ = 1 + (1 + (1 + pRetryAttemptsGo f 4 2)) := by rw [pRetryAttemptsGo_none f 3 2 h3]
        _ = 1 + (1 + (1 + (1 + pRetryAttemptsGo f 5 1))) := by
            rw [pRetryAttemptsGo_none f 4 1 h4]
        _ = 1 + (1 + (1 + (1 + (1 + pRetryAttemptsGo f 6 0)))) := by
            rw [pRetryAttemptsGo_none f 5 0 h5]
        _ = 6 := by norm_num [pRetryAttemptsGo]

/-- Claim C2 witness: the amended retry semantics evaluated on C2net,
    which fails on the first five attempts and succeeds on the sixth. -/
theorem C2_retry_makes_up_to_six_attempts_witness :
    pRetryFetch C2net = some ("c") ∧ pRetryAttempts C2net = 6 :=
  (C2_retry_makes_up_to_six_attempts C2net).2.1 ("c")
    (fun i _ h5 => by simp [C2net, h5])
    (by decide)

/- ------------------------------------------------------------------ -/
/- Claim C6: cancellation                                              -/
/- ------------------------------------------------------------------ -/

/-- If every attempt from a point on rejects with the same error, the
    retry loop runs through its whole budget and returns that error,
    visiting consecutive attempt numbers. -/
lemma pRetryTraceGo_all_error (f : Nat → Except FetchErr Content) (e : FetchErr) :
    ∀ (fuel attempt : Nat), (∀ a, attempt ≤ a → f a = Except.error e) →
      pRetryTraceGo f attempt fuel = (Except.error e, List.range' attempt (fuel + 1)) := by
  intro fuel
  induction fuel with
  | zero =>
    intro attempt h
    simp [pRetryTraceGo, h attempt le_rfl, List.range']
  | succ n ih =>
    intro attempt h
    have hr := ih (attempt + 1) (fun a ha => h a (by omega))
    simp [pRetryTraceGo, h attempt le_rfl, hr, List.range']

/-- Claim C6 counterexample: the claim says that once the shared token
    is set no new fetch attempt is issued and that the token is checked
    at each retry boundary (so a fetch cancelled between attempts should
    stop immediately). On the code, p-retry never sees the signal: with
    the token set from attempt 2 on and a failing first attempt, the
    loop still invokes the fetch at attempts 2 through 6 (each rejecting
    immediately with the abort error) and rethrows the abort error as an
    ordinary exhausted-retries rejection instead of stopping after
    attempt 1. -/
theorem C6_counterexample_attempts_after_cancel :
    C6cancelFromSecond 2 = true ∧
    (pRetryTrace (getContentFromUrl C6net C6cancelFromSecond)).2 = [1, 2, 3, 4, 5, 6] ∧
    (pRetryTrace (getContentFromUrl C6net C6cancelFromSecond)).1 =
      Except.error FetchErr.aborted :=
  ⟨rfl, rfl, rfl⟩

/-- Claim C6 (amended): the abort signal is consulted only inside
    node-fetch, at the start of each fetch attempt: for a monotone
    signal, every attempt that actually transmits a network request
    precedes every point at which the token is set. There is no
    retry-boundary check: with the token set from the start, the retry
    loop still performs its full budget of RETRIES + 1 fetch invocations
    (none of which transmits a network request) and returns the abort
    error as an exhausted-retries rejection rather than stopping early. -/
theorem C6_cancellation_checked_only_by_fetch (net : Nat → Option Content)
    (cancelledAt : Nat → Bool)
    (hmono : ∀ i j, i ≤ j → cancelledAt i = true → cancelledAt j = true) :
    (∀ c, cancelledAt c = true →
      ∀ i ∈ networkCalls cancelledAt
        (pRetryTrace (getContentFromUrl net cancelledAt)).2, i < c) ∧
    (cancelledAt 1 = true →
      (pRetryTrace (getContentFromUrl net cancelledAt)).2.length = RETRIES + 1 ∧
      (pRetryTrace (getContentFromUrl net cancelledAt)).1 =
        Except.error FetchErr.aborted) := by
  constructor
  · intro c hc i hi
    rw [networkCalls, List.mem_filter] at hi
    by_contra hlt
    push_neg at hlt
    have hci : cancelledAt i = true := hmono c i hlt hc
    rw [hci] at hi
    simp at hi
  · intro h1
    have hall : ∀ a, 1 ≤ a →
        getContentFromUrl net cancelledAt a = Except.error FetchErr.aborted := by
      intro a ha
      have hca : cancelledAt a = true := hmono 1 a ha h1
      simp [getContentFromUrl, hca]
    have ht := pRetryTraceGo_all_error (getContentFromUrl net cancelledAt)
      FetchErr.aborted RETRIES 1 hall
    rw [pRetryTrace, ht]
    simp

/-- Claim C6 witness: the amended cancellation semantics evaluated with
    the token set before the first attempt: all six attempts are made,
    none transmits a network request, and the abort error is returned. -/
theorem C6_cancellation_checked_only_by_fetch_witness :
    (pRetryTrace (getContentFromUrl C6net C6cancelAll)).2.length = RETRIES + 1 ∧
    (pRetryTrace (getContentFromUrl C6net C6cancelAll)).1 =
      Except.error FetchErr.aborted :=
  (C6_cancellation_checked_only_by_fetch C6net C6cancelAll
    (fun _ _ _ _ => rfl)).2 rfl

/- ------------------------------------------------------------------ -/
/- Job-level case analysis                                             -/
/- ------------------------------------------------------------------ -/

/-- Case analysis of one job: a rejected job leaves the state
    untouched; a resolved job increments the counter by exactly one and
    either leaves failedDownloads unchanged (write succeeded) or appends
    exactly its own file (write failed). -/
lemma downloadFile_spec (env : Env) (out : String) (f : TreeFile) (st : RunState) :
    ((downloadFile env out f st).1 = false ∧ (downloadFile env out f st).2 = st) ∨
    ((downloadFile env out f st).1 = true ∧
      (downloadFile env out f st).2.completed = st.completed + 1 ∧
      ((downloadFile env out f st).2.failedDownloads = st.failedDownloads ∨
        (downloadFile env out f st).2.failedDownloads = st.failedDownloads ++ [f])) := by
  cases hf : pRetryFetch (env.net f.url) with
  | none => left; simp [downloadFile, hf]
  | some blob =>
    right
    by_cases hw : env.writeOk (joinPath out f.path) = true
    · simp [downloadFile, hf, hw]
    · simp only [Bool.not_eq_true] at hw
      simp [downloadFile, hf, hw]

/-- Every state observed during a run has its counter bounded by the
    starting counter plus the number of descriptors. -/
lemma runStates_completed_le (env : Env) (out : String) :
    ∀ (l : List TreeFile) (st s : RunState),
      s ∈ runStates env out l st → s.completed ≤ st.completed + l.length := by
  intro l
  induction l with
  | nil =>
    intro st s hs
    simp [runStates] at hs
    simp [hs]
  | cons f rest ih =>
    intro st s hs
    rcases downloadFile_spec env out f st with ⟨h1, h2⟩ | ⟨h1, h2, _⟩
    · rw [runStates] at hs
      simp [h1, h2] at hs
      subst hs
      simp
    · rw [runStates] at hs
      simp [h1] at hs
      rcases hs with hs | hs
      · simp [hs]
      · have hb := ih (downloadFile env out f st).2 s hs
        rw [h2] at hb
        simp only [List.length_cons]
        omega

/-- The final counter of a run is bounded by the starting counter plus
    the number of descriptors. -/
lemma runDownloads_completed_le (env : Env) (out : String) :
    ∀ (l : List TreeFile) (st : RunState),
      (runDownloads env out l st).1.completed ≤ st.completed + l.length := by
  intro l
  induction l with
  | nil => intro st; simp [runDownloads]
  | cons f rest ih =>
    intro st
    rcases downloadFile_spec env out f st with ⟨h1, h2⟩ | ⟨h1, h2, _⟩
    · rw [runDownloads]
      simp [h1, h2]
    · rw [runDownloads]
      simp only [h1, if_true]
      have hb := ih (downloadFile env out f st).2
      rw [h2] at hb
      simp only [List.length_cons]
      omega

/- ------------------------------------------------------------------ -/
/- Claim C7: session invariants                                        -/
/- ------------------------------------------------------------------ -/

/-- Claim C7: throughout every run the progress counter never exceeds
    the total (both along the whole trace of observed states and in the
    final report), a job whose promise resolves increments the counter
    by exactly one, a rejected job changes nothing, and failedDownloads
    only ever grows by the completing job appending its own outcome. -/
theorem C7_completed_bounded_and_incremented (env : Env) (outputDir dir : String)
    (tree : List TreeFile) (initFiles : List (String × Content)) :
    (∀ s ∈ runStates env outputDir (selectDownloads tree dir)
        { completed := 0, failedDownloads := [], files := initFiles },
      s.completed ≤ (downloadDirectory env tree dir outputDir initFiles).total) ∧
    (downloadDirectory env tree dir outputDir initFiles).completed ≤
      (downloadDirectory env tree dir outputDir initFiles).total ∧
    (∀ (file : TreeFile) (st : RunState),
      ((downloadFile env outputDir file st).1 = true →
        (downloadFile env outputDir file st).2.completed = st.completed + 1) ∧
      ((downloadFile env outputDir file st).1 = false →
        (downloadFile env outputDir file st).2 = st) ∧
      ((downloadFile env outputDir file st).2.failedDownloads = st.failedDownloads ∨
        (downloadFile env outputDir file st).2.failedDownloads =
          st.failedDownloads ++ [file])) := by
  refine ⟨?_, ?_, ?_⟩
  · intro s hs
    have hb := runStates_completed_le env outputDir (selectDownloads tree dir) _ s hs
    simpa [downloadDirectory] using hb
  · have hb := runDownloads_completed_le env outputDir (selectDownloads tree dir)
      { completed := 0, failedDownloads := [], files := initFiles }
    simpa [downloadDirectory] using hb
  · intro file st
    rcases downloadFile_spec env outputDir file st with ⟨h1, h2⟩ | ⟨h1, h2, h3⟩
    · refine ⟨fun ht => ?_, fun _ => h2, ?_⟩
      · rw [h1] at ht; exact absurd ht (by simp)
      · left; rw [h2]
    · refine ⟨fun _ => h2, fun hfalse => ?_, h3⟩
      rw [h1] at hfalse; exact absurd hfalse (by simp)

/-- Claim C7 witness: the invariants evaluated on a concrete one-file
    run, including the bound at the concrete final state of the trace. -/
theorem C7_completed_bounded_and_incremented_witness :
    RunState.completed ⟨1, [], [("/out/d/x", "c")]⟩ ≤
      (downloadDirectory C7env C7tree ("d") ("/out") []).total ∧
    (downloadDirectory C7env C7tree ("d") ("/out") []).completed ≤
      (downloadDirectory C7env C7tree ("d") ("/out") []).total :=
  ⟨(C7_completed_bounded_and_incremented C7env ("/out") ("d") C7tree []).1
      ⟨1, [], [("/out/d/x", "c")]⟩ (by decide),
    (C7_completed_bounded_and_incremented C7env ("/out") ("d") C7tree []).2.1⟩

/- ------------------------------------------------------------------ -/
/- Claim C1: a single permanent failure aborts the batch               -/
/- ------------------------------------------------------------------ -/

set_option maxRecDepth 100000

/-- Claim C1 (code bug): the claim — matching the stated intent that
    one bad file must never stop the batch — says an exhausted-retries
    failure is recorded in the failures collection and the run continues,
    so that one permanently failing file among 100 yields completed = 100
    and one recorded failure. The code instead rejects the batch at the
    failing job: evaluated at the failing input (file with url 50
    permanently failing among 100), the run aborts with completed = 50,
    an empty failedDownloads (fetch failures are never recorded there),
    and only the 50 files scheduled before the failing one written. Under
    any scheduling, the failing file never increments the counter and is
    never appended to failedDownloads, so completed = 100 with one
    recorded failure is impossible. -/
theorem C1_single_failure_aborts_batch :
    (downloadDirectory C1env C1tree ("d") ("/out") []).total = 100 ∧
    (downloadDirectory C1env C1tree ("d") ("/out") []).aborted = true ∧
    (downloadDirectory C1env C1tree ("d") ("/out") []).completed = 50 ∧
    (downloadDirectory C1env C1tree ("d") ("/out") []).failedDownloads = [] ∧
    (downloadDirectory C1env C1tree ("d") ("/out") []).files.length = 50 := by
  decide

/- ------------------------------------------------------------------ -/
/- Claim C5: write failure after a successful fetch                    -/
/- ------------------------------------------------------------------ -/

/-- Claim C5 (code bug): the claim says a disk-write failure after a
    successful fetch makes the job outcome a Failed result. In the code
    the write is fire-and-forget: evaluated at the failing input (fetch
    succeeds, write fails), the job still resolves as a success — the
    batch sees no failure and the progress counter is incremented — while
    the file is pushed onto failedDownloads (and later warned about); the
    error thrown inside the write callback never reaches the job, and
    despite the Retrying message no retry happens. -/
theorem C5_write_failure_job_still_resolves :
    (downloadFile C5env ("/out") C5file ⟨0, [], []⟩).1 = true ∧
    (downloadFile C5env ("/out") C5file ⟨0, [], []⟩).2 = ⟨1, [C5file], []⟩ := by
  decide

/- ------------------------------------------------------------------ -/
/- Claim C3: no path traversal guard                                   -/
/- ------------------------------------------------------------------ -/

/-- Claim C3 counterexample: the claim says any relativePath whose join
    with destRoot resolves outside destRoot is rejected with a
    PathTraversal error and no file is created outside the root. The
    code has no such guard: the blob path a/../../evil passes the
    directory filter for a/, joins to /evil outside /out, and the run
    writes the fetched content there and reports plain success. -/
theorem C3_counterexample_traversal_write_succeeds :
    joinPath ("/out") C3file.path = "/evil" ∧
    strStartsWith ("/evil") ("/out") = false ∧
    (downloadDirectory C3env [C3file] ("a") ("/out") []).files =
      [("/evil", "payload")] ∧
    (downloadDirectory C3env [C3file] ("a") ("/out") []).aborted = false ∧
    (downloadDirectory C3env [C3file] ("a") ("/out") []).completed = 1 := by
  decide

/-- Claim C3 (amended): the file writer applies no path traversal
    check: whenever the fetch succeeds and the disk accepts the write,
    the job resolves and the content is written at
    join(outputDir, file.path), whether or not that path lies inside the
    destination root. -/
theorem C3_no_traversal_guard (env : Env) (outputDir : String) (file : TreeFile)
    (st : RunState) (blob : Content)
    (hfetch : pRetryFetch (env.net file.url) = some blob)
    (hwrite : env.writeOk (joinPath outputDir file.path) = true) :
    (downloadFile env outputDir file st).1 = true ∧
    (downloadFile env outputDir file st).2.files =
      writeEntry st.files (joinPath outputDir file.path) blob := by
  simp [downloadFile, hfetch, hwrite]

/-- Claim C3 witness: the amended statement evaluated at the traversal
    path a/../../evil, which is written at /evil outside /out. -/
theorem C3_no_traversal_guard_witness :
    (downloadFile C3env ("/out") C3file ⟨0, [], []⟩).1 = true ∧
    (downloadFile C3env ("/out") C3file ⟨0, [], []⟩).2.files =
      writeEntry [] (joinPath ("/out") C3file.path) ("payload") :=
  C3_no_traversal_guard C3env ("/out") C3file ⟨0, [], []⟩ ("payload")
    (by decide) (by decide)

/- ------------------------------------------------------------------ -/
/- Claim C8: which descriptors are downloaded                          -/
/- ------------------------------------------------------------------ -/

/-- Pushing matching elements onto an accumulator is filtering. -/
lemma foldl_push_filter (p : TreeFile → Bool) :
    ∀ (l acc : List TreeFile),
      l.foldl (fun acc f => if p f then acc ++ [f] else acc) acc = acc ++ l.filter p := by
  intro l
  induction l with
  | nil => intro acc; simp
  | cons f rest ih =>
    intro acc
    by_cases h : p f
    · simp [h, ih, List.filter_cons]
    · simp [h, ih, List.filter_cons]

/-- Claim C8 counterexample: the claim says the orchestrator downloads
    exactly the descriptors of kind blob and that total is the size of
    the blob-filtered list. On the code a blob whose path does not start
    with the requested directory is filtered out too: with one blob
    under other/ and the directory sub/, total is 0 and nothing is
    downloaded although the blob-filtered list has one element. -/
theorem C8_counterexample_blob_outside_dir_not_downloaded :
    (C8tree.filter (fun f => f.type == "blob")).length = 1 ∧
    (downloadDirectory C8env C8tree ("sub") ("/out") []).total = 0 ∧
    (downloadDirectory C8env C8tree ("sub") ("/out") []).completed = 0 ∧
    (downloadDirectory C8env C8tree ("sub") ("/out") []).files = [] := by
  decide

/-- Claim C8 (amended): the orchestrator downloads exactly the
    descriptors that are blobs AND whose path starts with the requested
    directory (normalized to end with a slash), and total is the size of
    that doubly filtered list. -/
theorem C8_downloads_are_blobs_under_dir (tree : List TreeFile) (dir : String) :
    selectDownloads tree dir =
      tree.filter (fun f => f.type == "blob" && strStartsWith f.path (normalizeDir dir)) ∧
    (∀ (env : Env) (outputDir : String) (initFiles : List (String × Content)),
      (downloadDirectory env tree dir outputDir initFiles).total =
        (tree.filter
          (fun f => f.type == "blob" && strStartsWith f.path (normalizeDir dir))).length) := by
  have hsel : selectDownloads tree dir =
      tree.filter (fun f => f.type == "blob" && strStartsWith f.path (normalizeDir dir)) := by
    rw [selectDownloads, foldl_push_filter]
    simp
  exact ⟨hsel, fun env outputDir initFiles => by simp [downloadDirectory, hsel]⟩

/-- Claim C8 witness: the amended filter evaluated on the one-blob tree
    outside the requested directory. -/
theorem C8_downloads_are_blobs_under_dir_witness :
    selectDownloads C8tree ("sub") =
      C8tree.filter
        (fun f => f.type == "blob" && strStartsWith f.path (normalizeDir ("sub"))) :=
  (C8_downloads_are_blobs_under_dir C8tree ("sub")).1

/- ------------------------------------------------------------------ -/
/- Claim C9: re-running against a populated destination                -/
/- ------------------------------------------------------------------ -/

/-- One job depends on the starting state only through the counter and
    failedDownloads, never through the destination filesystem. -/
lemma downloadFile_files_indep (env : Env) (out : String) (f : TreeFile)
    (st1 st2 : RunState) (hc : st1.completed = st2.completed)
    (hf : st1.failedDownloads = st2.failedDownloads) :
    (downloadFile env out f st1).1 = (downloadFile env out f st2).1 ∧
    (downloadFile env out f st1).2.completed = (downloadFile env out f st2).2.completed ∧
    (downloadFile env out f st1).2.failedDownloads =
      (downloadFile env out f st2).2.failedDownloads := by
  cases hfetch : pRetryFetch (env.net f.url) with
  | none => simp [downloadFile, hfetch, hc, hf]
  | some blob =>
    by_cases hw : env.writeOk (joinPath out f.path) = true
    · simp [downloadFile, hfetch, hw, hc, hf]
    · simp only [Bool.not_eq_true] at hw
      simp [downloadFile, hfetch, hw, hc, hf]

/-- A whole run depends on the starting state only through the counter
    and failedDownloads, never through the destination filesystem. -/
lemma runDownloads_files_indep (env : Env) (out : String) :
    ∀ (l : List TreeFile) (st1 st2 : RunState),
      st1.completed = st2.completed → st1.failedDownloads = st2.failedDownloads →
      (runDownloads env out l st1).1.completed = (runDownloads env out l st2).1.completed ∧
      (runDownloads env out l st1).1.failedDownloads =
        (runDownloads env out l st2).1.failedDownloads ∧
      (runDownloads env out l st1).2 = (runDownloads env out l st2).2 := by
  intro l
  induction l with
  | nil => intro st1 st2 hc hf; simp [runDownloads, hc, hf]
  | cons f rest ih =>
    intro st1 st2 hc hf
    obtain ⟨e1, e2, e3⟩ := downloadFile_files_indep env out f st1 st2 hc hf
    rw [runDownloads, runDownloads]
    by_cases hok : (downloadFile env out f st1).1 = true
    · have hok2 : (downloadFile env out f st2).1 = true := e1.symm.trans hok
      simp only [hok, hok2, if_true]
      exact ih _ _ e2 e3
    · simp only [Bool.not_eq_true] at hok
      have hok2 : (downloadFile env out f st2).1 = false := e1.symm.trans hok
      simp only [hok, hok2, Bool.false_eq_true, if_false]
      exact ⟨e2, e3, trivial⟩

/-- Claim C9 counterexample: the claim says re-running against a
    destination that already fully contains the expected files produces
    the same failures set as a fresh run (idempotent overwrite). On the
    code: a fresh run completes the single download with no failures,
    but the re-run against the populated destination never reaches the
    orchestrator — the existsSync guard warns and exits the process with
    code 1, producing no failures set at all. -/
theorem C9_counterexample_rerun_exits :
    download C9env (fun _ => false) (some ("/u/r/tree/m/d/")) C9tree ("/out") [] =
      EntryResult.ran ⟨1, 1, [], [("/out/d/f", "c")], false⟩ ∧
    download C9env (fun _ => true) (some ("/u/r/tree/m/d/")) C9tree ("/out")
        [("/out/d/f", "c")] =
      EntryResult.exitFolderExists := by
  decide

/-- Claim C9 (amended): when the join of the output directory and the
    requested directory already exists, the entry point exits before
    invoking the orchestrator instead of overwriting. The orchestrator
    itself, if invoked directly, is idempotent in the claimed sense: with
    deterministic fetch behaviour its failures, counter and abort flag do
    not depend on the files already present at the destination. -/
theorem C9_rerun_exits_instead_of_overwriting :
    (∀ (env : Env) (existsSync : String → Bool) (pathname : String)
        (tree : List TreeFile) (outputDir : String)
        (initFiles : List (String × Content)) (u r rf d : String),
      URL_REGEX_exec pathname = some (u, r, rf, d) →
      existsSync (joinPath outputDir d) = true →
      download env existsSync (some pathname) tree outputDir initFiles =
        EntryResult.exitFolderExists) ∧
    (∀ (env : Env) (tree : List TreeFile) (dir outputDir : String)
        (init1 init2 : List (String × Content)),
      (downloadDirectory env tree dir outputDir init1).failedDownloads =
        (downloadDirectory env tree dir outputDir init2).failedDownloads ∧
      (downloadDirectory env tree dir outputDir init1).completed =
        (downloadDirectory env tree dir outputDir init2).completed ∧
      (downloadDirectory env tree dir outputDir init1).aborted =
        (downloadDirectory env tree dir outputDir init2).aborted) := by
  constructor
  · intro env existsSync pathname tree outputDir initFiles u r rf d hre hex
    simp [download, hre, hex]
  · intro env tree dir outputDir init1 init2
    obtain ⟨e1, e2, e3⟩ := runDownloads_files_indep env outputDir
      (selectDownloads tree dir)
      { completed := 0, failedDownloads := [], files := init1 }
      { completed := 0, failedDownloads := [], files := init2 } rfl rfl
    exact ⟨by simpa [downloadDirectory] using e2,
      by simpa [downloadDirectory] using e1,
      by simpa [downloadDirectory] using e3⟩

/-- Claim C9 witness: the amended statement evaluated at a populated
    destination: the entry point exits instead of downloading. -/
theorem C9_rerun_exits_instead_of_overwriting_witness :
    download C9env (fun _ => true) (some ("/u/r/tree/m/d/")) C9tree ("/out") [] =
      EntryResult.exitFolderExists :=
  (C9_rerun_exits_instead_of_overwriting).1 C9env (fun _ => true)
    ("/u/r/tree/m/d/") C9tree ("/out") [] ("u") ("r") ("m") ("d/")
    (by decide) rfl

/- ------------------------------------------------------------------ -/
/- Claim C10: pathnames the URL regex rejects                          -/
/- ------------------------------------------------------------------ -/

/-- Claim C10: for every input the URL constructor accepts whose
    pathname does not match the user/repository/tree/ref pattern, the
    entry point throws (destructuring the null result of
    URL_REGEX.exec fails with a TypeError) instead of warning; the
    graceful invalid-url warning is produced exactly when the URL
    constructor itself rejects the input. A concrete non-matching
    pathname (a blob link rather than a tree link) is included. -/
theorem C10_nonmatching_pathname_throws :
    (∀ (p : String), URL_REGEX_exec p = none →
      ∀ (env : Env) (existsSync : String → Bool) (tree : List TreeFile)
        (outputDir : String) (initFiles : List (String × Content)),
        download env existsSync (some p) tree outputDir initFiles =
          EntryResult.throwsTypeError) ∧
    (∀ (env : Env) (existsSync : String → Bool) (tree : List TreeFile)
        (outputDir : String) (initFiles : List (String × Content)),
      download env existsSync none tree outputDir initFiles =
        EntryResult.invalidUrlWarning) ∧
    URL_REGEX_exec ("/user/repo/blob/main/x") = none := by
  refine ⟨?_, ?_, by decide⟩
  · intro p hp env existsSync tree outputDir initFiles
    simp [download, hp]
  · intro env existsSync tree outputDir initFiles
    simp [download]

/-- Claim C10 witness: the entry point evaluated at a URL whose pathname
    points at a blob instead of a tree: it throws rather than warns. -/
theorem C10_nonmatching_pathname_throws_witness :
    download C10env (fun _ => false) (some ("/user/repo/blob/main/x")) []
      ("/out") [] = EntryResult.throwsTypeError :=
  (C10_nonmatching_pathname_throws).1 ("/user/repo/blob/main/x") (by decide)
    C10env (fun _ => false) [] ("/out") []

end GitDir
